import Mathlib

/-!
Shallow embedding of the OAuth token lifecycle core of the evidence-tracker
repository, covering:

  - the token refreshers of the two integration clients
    (src/app/api/mycase/clients/route.ts refreshTokenIfNeeded and
     src/app/api/google/drive/upload/route.ts refreshTokenIfNeeded);
  - the token store load step of both route handlers;
  - the MyCase singleton token store save path of the OAuth callback
    (src/app/api/mycase/oauth/callback/route.ts) over the schema of
    src/supabase-oauth-schema.sql;
  - the Google OAuth callback handlers
    (src/app/api/google/oauth/callback/route.ts, both variants);
  - the Link-header pagination loop of the MyCase clients listing.

Modelling conventions:
  - JavaScript Date values are modelled as Int milliseconds since the
    epoch (the value of Date.getTime); the ISO string stored in expires_at
    and its Date parse are identified with that integer.  The several
    calls to new Date() / Date.now() inside one handler run are modelled
    as a single instant `now`.
  - fetch calls are abstracted as oracle arguments: a response structure
    for token-endpoint exchanges, and a page function for the paginated
    cases listing (the page function returns the records of the page
    together with the page token already extracted from the rel next
    entry of the Link header).
  - Supabase query results keep the client library shape: a pair of an
    optional data value and an optional error, as returned by .single().
  - performed side effects (refresh exchanges, database writes) are
    returned explicitly so that frame properties can be stated.
-/

/-- Safety margin of the staleness check: 5 * 60 * 1000 milliseconds. -/
def SKEW_MS : Int := 5 * 60 * 1000

/-- In-memory MyCase token record (interface MyCaseTokens of
src/app/api/mycase/clients/route.ts, with expires_at as parsed Int). -/
structure MyCaseTokens where
  access_token : String
  refresh_token : String
  expires_at : Int
deriving Repr, DecidableEq

/-- Response of the MyCase token endpoint, as read by refreshTokenIfNeeded:
ok is response.ok, the remaining fields are the parsed JSON body. -/
structure MyCaseRefreshResponse where
  ok : Bool
  access_token : String
  refresh_token : String
  expires_in : Int
deriving Repr, DecidableEq

/-- Payload of the supabase update issued by the MyCase refresher
(columns access_token, refresh_token, expires_at, updated_at). -/
structure MyCaseRefreshWrite where
  access_token : String
  refresh_token : String
  expires_at : Int
  updated_at : Int
deriving Repr, DecidableEq

/-- Observable outcome of one run of the MyCase refreshTokenIfNeeded:
its return value or thrown error, the number of refresh exchanges
performed against the token endpoint, and the database writes issued. -/
structure MyCaseRefreshOutcome where
  result : Except String MyCaseTokens
  exchanges : Nat
  dbWrites : List MyCaseRefreshWrite
deriving Repr

/-- Embedding of refreshTokenIfNeeded of src/app/api/mycase/clients/route.ts
(lines 31-77).  The staleness check is the strict comparison
expiresAt.getTime() - now.getTime() < 5 * 60 * 1000; on refresh the new
expiry is Date.now() + expires_in * 1000 and the new record is written to
the singleton row with an update; a non-ok exchange throws before any
write. -/
def mycaseRefreshTokenIfNeeded (now : Int) (tokens : MyCaseTokens)
    (resp : MyCaseRefreshResponse) : MyCaseRefreshOutcome :=
  if tokens.expires_at - now < SKEW_MS then
    if resp.ok = true then
      let newTokens : MyCaseTokens :=
        ⟨resp.access_token, resp.refresh_token, now + resp.expires_in * 1000⟩
      { result := .ok newTokens
        exchanges := 1
        dbWrites := [⟨newTokens.access_token, newTokens.refresh_token,
                      newTokens.expires_at, now⟩] }
    else
      { result := .error "Failed to refresh token", exchanges := 1, dbWrites := [] }
  else
    { result := .ok tokens, exchanges := 0, dbWrites := [] }

/-- In-memory Google token record (interface GoogleTokens of
src/app/api/google/drive/upload/route.ts). -/
structure GoogleTokens where
  access_token : String
  refresh_token : String
  expires_at : Int
  user_id : String
deriving Repr, DecidableEq

/-- Response of the Google token endpoint.  The refresh_token field is
optional in the wire format; the upload route never reads it. -/
structure GoogleRefreshResponse where
  ok : Bool
  access_token : String
  refresh_token : Option String
  expires_in : Int
deriving Repr, DecidableEq

/-- Payload of the supabase update issued by the Google refresher: only
the columns access_token, expires_at and updated_at are written. -/
structure GoogleRefreshWrite where
  access_token : String
  expires_at : Int
  updated_at : Int
deriving Repr, DecidableEq

/-- Observable outcome of one run of the Google refreshTokenIfNeeded. -/
structure GoogleRefreshOutcome where
  result : Except String GoogleTokens
  exchanges : Nat
  dbWrites : List GoogleRefreshWrite
deriving Repr

/-- Embedding of refreshTokenIfNeeded of
src/app/api/google/drive/upload/route.ts (lines 17-63).  Same strict
staleness check; on refresh only access_token, expires_at and updated_at
are written, and the returned record is the spread of the input with the
new access_token and expires_at (refresh_token and user_id carried over). -/
def googleRefreshTokenIfNeeded (now : Int) (tokens : GoogleTokens)
    (resp : GoogleRefreshResponse) : GoogleRefreshOutcome :=
  if tokens.expires_at - now < SKEW_MS then
    if resp.ok = true then
      let newExpiresAt : Int := now + resp.expires_in * 1000
      { result := .ok { tokens with access_token := resp.access_token,
                                    expires_at := newExpiresAt }
        exchanges := 1
        dbWrites := [⟨resp.access_token, newExpiresAt, now⟩] }
    else
      { result := .error "Failed to refresh token", exchanges := 1, dbWrites := [] }
  else
    { result := .ok tokens, exchanges := 0, dbWrites := [] }

/-- Stored row of the google_oauth_tokens table
(src/supabase-google-oauth-setup.sql). -/
structure GoogleRow where
  user_id : String
  access_token : String
  refresh_token : String
  expires_at : Int
  scope : String
  updated_at : Int
deriving Repr, DecidableEq

/-- Effect of the refresher update of the upload route on a matched row:
the three columns of the payload are replaced, everything else kept. -/
def applyGoogleRefreshWrite (row : GoogleRow) (p : GoogleRefreshWrite) : GoogleRow :=
  { row with access_token := p.access_token, expires_at := p.expires_at,
             updated_at := p.updated_at }

/-- Result of a supabase .single() call: an optional data row and an
optional error.  When no row matches, PostgREST answers with error
PGRST116 and null data, so a never-written subject and a transient
storage failure both arrive with data = none and error = some message. -/
structure DbSingle (α : Type) where
  data : Option α
  error : Option String
deriving Repr, DecidableEq

/-- Outcome of the token-load step of a route handler: either the 401
not-connected response carrying needsOAuth, or the loaded record to
proceed with. -/
inductive TokenLoadOutcome (α : Type) where
  | needsOAuth
  | proceed (t : α)
deriving Repr, DecidableEq

/-- Stored row of the mycase_oauth_tokens table
(src/supabase-oauth-schema.sql): a surrogate uuid primary key plus the
token columns, under a unique index on the constant expression (1) that
admits at most one row. -/
structure MyCaseRow where
  id : Nat
  access_token : String
  refresh_token : String
  expires_at : Int
  updated_at : Int
deriving Repr, DecidableEq

/-- Embedding of the token-load step of the MyCase clients GET handler
(src/app/api/mycase/clients/route.ts lines 82-96): the branch condition
is tokenError or not tokenData, and both cases answer with the same 401
needsOAuth response. -/
def mycaseTokenLoad (r : DbSingle MyCaseRow) : TokenLoadOutcome MyCaseTokens :=
  match r.error, r.data with
  | none, some row => .proceed ⟨row.access_token, row.refresh_token, row.expires_at⟩
  | _, _ => .needsOAuth

/-- Embedding of the token-load step of the Google Drive upload POST
handler (src/app/api/google/drive/upload/route.ts lines 82-104): again
tokenError or not tokenData both answer 401 not connected. -/
def googleTokenLoad (r : DbSingle GoogleRow) : TokenLoadOutcome GoogleTokens :=
  match r.error, r.data with
  | none, some row =>
      .proceed ⟨row.access_token, row.refresh_token, row.expires_at, row.user_id⟩
  | _, _ => .needsOAuth

/-- The .single() result a never-authorized store produces: no row, and
the PGRST116 no-rows error of PostgREST. -/
def mycaseNeverWritten : DbSingle MyCaseRow :=
  ⟨none, some "PGRST116: JSON object requested, multiple (or no) rows returned"⟩

/-- The .single() result of a transient storage failure: no data and an
error message from the failed query. -/
def mycaseTransientFailure : DbSingle MyCaseRow :=
  ⟨none, some "connection timeout"⟩

/-- Token fields written by the MyCase OAuth callback
(src/app/api/mycase/oauth/callback/route.ts). -/
structure MyCaseTokenPayload where
  access_token : String
  refresh_token : String
  expires_at : Int
deriving Repr, DecidableEq

/-- Embedding of the supabase upsert of the MyCase callback (lines 63-74):
POST with on_conflict=id and resolution=merge-duplicates, payload without
an id, against the schema of src/supabase-oauth-schema.sql.  The id
column is filled by its gen_random_uuid() default, modelled by the
freshId argument.  When the table is empty the insert succeeds.  When a
row exists, the generated id conflicts with the existing primary key only
if freshId happens to equal it (in which case ON CONFLICT (id) DO UPDATE
rewrites that row); otherwise the statement is a plain insert of a second
row and the unique index idx_mycase_oauth_singleton on the constant
expression (1) rejects it. -/
def mycaseUpsertOnConflictId (store : Option MyCaseRow) (freshId : Nat)
    (now : Int) (p : MyCaseTokenPayload) : Except String (Option MyCaseRow) :=
  match store with
  | none => .ok (some ⟨freshId, p.access_token, p.refresh_token, p.expires_at, now⟩)
  | some row =>
    if freshId = row.id then
      .ok (some ⟨row.id, p.access_token, p.refresh_token, p.expires_at, now⟩)
    else
      .error "duplicate key value violates unique constraint idx_mycase_oauth_singleton"

/-- Embedding of the fallback plain insert of the MyCase callback
(lines 78-84): succeeds only when the table is empty, otherwise the
singleton unique index rejects the second row. -/
def mycaseInsert (store : Option MyCaseRow) (freshId : Nat) (now : Int)
    (p : MyCaseTokenPayload) : Except String (Option MyCaseRow) :=
  match store with
  | none => .ok (some ⟨freshId, p.access_token, p.refresh_token, p.expires_at, now⟩)
  | some _ =>
      .error "duplicate key value violates unique constraint idx_mycase_oauth_singleton"

/-- Embedding of the save path of the MyCase callback (lines 63-89): try
the upsert, and on a database error fall back to a plain insert; if that
fails too, throw.  freshId1 and freshId2 model the uuids generated by the
two statements. -/
def mycaseSaveTokens (store : Option MyCaseRow) (freshId1 freshId2 : Nat)
    (now : Int) (p : MyCaseTokenPayload) : Except String (Option MyCaseRow) :=
  match mycaseUpsertOnConflictId store freshId1 now p with
  | .ok s => .ok s
  | .error _ =>
    match mycaseInsert store freshId2 now p with
    | .ok s => .ok s
    | .error m => .error ("Failed to save tokens: " ++ m)

/-- JavaScript falsiness of a nullable string: null and the empty string
are falsy (searchParams.get returns null for an absent parameter). -/
def jsFalsy : Option String → Bool
  | none => true
  | some s => s.isEmpty

/-- Query parameters of an OAuth callback request. -/
structure CallbackRequest where
  code : Option String
  error : Option String
  state : Option String
deriving Repr, DecidableEq

/-- Parsed body of a successful authorization-code exchange, together
with response.ok. -/
structure ExchangeResult where
  ok : Bool
  access_token : String
  refresh_token : String
  scope : String
  expires_in : Int
deriving Repr, DecidableEq

/-- Row payload of the google_oauth_tokens upsert issued by the Google
OAuth callback. -/
structure GoogleUpsertPayload where
  user_id : String
  access_token : String
  refresh_token : String
  expires_at : Int
  scope : String
  updated_at : Int
deriving Repr, DecidableEq

/-- Terminal outcome of a Google OAuth callback run: a redirect to the
dashboard with an error, to the login page with an error, or the success
redirect. -/
inductive CallbackOutcome where
  | dashboardError (msg : String)
  | loginError (msg : String)
  | success
deriving Repr, DecidableEq

/-- Embedding of the state-parameter variant of the Google OAuth callback
GET handler (src/app/api/google/oauth/callback/route.ts lines 137-224):
error and code are checked first, then the state parameter carrying the
user id; a missing state redirects to login with no_user_id before any
exchange.  The second component lists the upsert calls issued. -/
def googleCallbackState (req : CallbackRequest) (now : Int)
    (ex : ExchangeResult) (dbError : Option String) :
    CallbackOutcome × List GoogleUpsertPayload :=
  if jsFalsy req.error = false then (.dashboardError (req.error.getD ""), [])
  else if jsFalsy req.code = true then (.dashboardError "no_code", [])
  else if jsFalsy req.state = true then (.loginError "no_user_id", [])
  else if ex.ok = false then
    (.dashboardError "Failed to exchange code for tokens", [])
  else
    let payload : GoogleUpsertPayload :=
      ⟨req.state.getD "", ex.access_token, ex.refresh_token,
       now + ex.expires_in * 1000, ex.scope, now⟩
    match dbError with
    | some _ => (.dashboardError "Failed to save tokens", [payload])
    | none => (.success, [payload])

/-- Embedding of the cookie-session variant of the Google OAuth callback
GET handler (same file, lines 10-127): after the code exchange the
handler looks for the sb-...-auth-token cookie and decodes the session
JWT payload to recover the subject; a missing cookie redirects to login
with not_logged_in, and any parse failure (wrong segment count, bad
base64, no sub claim) is caught and redirects to login with
invalid_session.  The JWT decoding is abstracted as the oracle sub,
returning none on any parse failure.  A database error on the upsert is
thrown inside the same try block, so it too surfaces as invalid_session,
after the upsert call was issued. -/
def googleCallbackCookie (code err : Option String) (now : Int)
    (ex : ExchangeResult) (cookie : Option String)
    (sub : String → Option String) (dbError : Option String) :
    CallbackOutcome × List GoogleUpsertPayload :=
  if jsFalsy err = false then (.dashboardError (err.getD ""), [])
  else if jsFalsy code = true then (.dashboardError "no_code", [])
  else if ex.ok = false then
    (.dashboardError "Failed to exchange code for tokens", [])
  else
    match cookie with
    | none => (.loginError "not_logged_in", [])
    | some cv =>
      match sub cv with
      | none => (.loginError "invalid_session", [])
      | some uid =>
        let payload : GoogleUpsertPayload :=
          ⟨uid, ex.access_token, ex.refresh_token,
           now + ex.expires_in * 1000, ex.scope, now⟩
        match dbError with
        | some _ => (.loginError "invalid_session", [payload])
        | none => (.success, [payload])

/-- MyCase client entry of a case (interface MyCaseClient). -/
structure MyCaseClientRec where
  id : Int
  first_name : String
  last_name : String
deriving Repr, DecidableEq

/-- MyCase case record as returned by the cases listing (interface
MyCaseCase), with updated_at as parsed Int. -/
structure MyCaseCase where
  id : Int
  case_number : String
  name : String
  clients : List MyCaseClientRec
  updated_at : Int
deriving Repr, DecidableEq

/-- One page of the cases listing as seen by the loop body: the parsed
JSON records, and the page token extracted from the rel next entry of
the Link header (none when the header has no next link). -/
structure CasesPage where
  cases : List MyCaseCase
  nextPageToken : Option String
deriving Repr, DecidableEq

/-- Embedding of the do/while pagination loop of the MyCase clients GET
handler (src/app/api/mycase/clients/route.ts lines 115-161): fetch the
page for the current token, append its records, and continue while a
next page token is present.  The authority oracle maps a page token to
its page.  The fuel argument bounds the number of iterations so the
embedding is total; every run of the loop that terminates is reproduced
by a large enough fuel. -/
def fetchAllCases : Nat → (Option String → CasesPage) → Option String → List MyCaseCase
  | 0, _, _ => []
  | fuel + 1, authority, tok =>
    let page := authority tok
    match page.nextPageToken with
    | none => page.cases
    | some t => page.cases ++ fetchAllCases fuel authority (some t)

/-- Client view produced for the frontend by the map step of the handler
(lines 166-181). -/
structure ClientView where
  id : Int
  name : String
  case_number : String
  case_name : String
  updated_at : Int
deriving Repr, DecidableEq

/-- Embedding of the per-case mapping of the handler: the primary client
is clients[0]; its first and last name joined with a space and trimmed,
or Unknown Client when the case has no client; a falsy case_number is
replaced by No Case Number. -/
def formatClient (c : MyCaseCase) : ClientView :=
  match c.clients.head? with
  | some pc =>
      ⟨c.id, (pc.first_name ++ " " ++ pc.last_name).trim,
       if c.case_number.isEmpty then "No Case Number" else c.case_number,
       c.name, c.updated_at⟩
  | none =>
      ⟨c.id, "Unknown Client",
       if c.case_number.isEmpty then "No Case Number" else c.case_number,
       c.name, c.updated_at⟩

/-- Stable insertion of a client view into a list sorted by updated_at
descending; the new element goes before every element with a strictly
smaller key and after the equal-keyed ones already present. -/
def insertDesc (x : ClientView) : List ClientView → List ClientView
  | [] => [x]
  | y :: ys =>
    if y.updated_at ≤ x.updated_at then x :: y :: ys else y :: insertDesc x ys

/-- Stable sort by updated_at descending, the behaviour of the
Array.prototype.sort call with comparator dateB - dateA (lines 183-187). -/
def sortByUpdatedDesc (l : List ClientView) : List ClientView :=
  l.foldr insertDesc []

/-- Embedding of the full listing pipeline of the GET handler: fetch all
pages, map every case to its client view, and sort by updated_at
descending.  No deduplication step exists in the source. -/
def mycaseClientsList (fuel : Nat) (authority : Option String → CasesPage) :
    List ClientView :=
  sortByUpdatedDesc ((fetchAllCases fuel authority none).map formatClient)

/-- A three-page authority whose pages hold the given record lists, chained
by the tokens 2 and 3 carried in the rel next links of the first two
responses. -/
def chain3 (l1 l2 l3 : List MyCaseCase) : Option String → CasesPage
  | none => ⟨l1, some "2"⟩
  | some s => if s = "2" then ⟨l2, some "3"⟩
              else if s = "3" then ⟨l3, none⟩
              else ⟨[], none⟩

/-- A case record with the given id and updated_at instant, one client. -/
def exCase (i : Int) (u : Int) : MyCaseCase :=
  ⟨i, "CN", "Case", [⟨i, "A", "B"⟩], u⟩

/-- Mock authority of the pagination scenario: 3 pages of 2 records each,
with the record of id 4 appearing on both page 2 and page 3. -/
def exAuthority : Option String → CasesPage :=
  chain3 [exCase 1 60, exCase 2 50] [exCase 3 40, exCase 4 30]
         [exCase 4 30, exCase 5 20]

/-- Inserting one element grows the list length by one. -/
theorem insertDesc_length (x : ClientView) (l : List ClientView) :
    (insertDesc x l).length = l.length + 1 := by
  induction l with
  | nil => rfl
  | cons y ys ih =>
    unfold insertDesc
    by_cases h : y.updated_at ≤ x.updated_at
    · rw [if_pos h]
      rfl
    · rw [if_neg h]
      simp [ih]

/-- The sort of the listing pipeline preserves the number of records. -/
theorem sortByUpdatedDesc_length (l : List ClientView) :
    (sortByUpdatedDesc l).length = l.length := by
  unfold sortByUpdatedDesc
  induction l with
  | nil => rfl
  | cons y ys ih => simp [insertDesc_length, ih]

/-- C1: the save path of the MyCase OAuth callback inserts a row when the
singleton store is empty, but on a store that already holds a row the
upsert keyed on the surrogate id (with a freshly generated uuid, here 1
resp. 2, distinct from the existing primary key 0) violates the singleton
unique index, the fallback insert violates it as well, and the call
throws with the store unchanged — instead of overwriting the existing
row as the claim states.  This contradicts the intent recorded in the
source comment (upsert to keep only one row). -/
theorem mycase_upsert_existing_row_save_fails :
    mycaseSaveTokens none 1 2 1000 ⟨"new_at", "new_rt", 4000⟩
      = .ok (some ⟨1, "new_at", "new_rt", 4000, 1000⟩)
    ∧ mycaseSaveTokens (some ⟨0, "old_at", "old_rt", 500, 100⟩) 1 2 1000
        ⟨"new_at", "new_rt", 4000⟩
      = .error "Failed to save tokens: duplicate key value violates unique constraint idx_mycase_oauth_singleton" :=
  ⟨rfl, rfl⟩

/-- C2 counterexample: on the mocked 3-page authority with record 4 on
both pages 2 and 3, the client returns the six records with ids
1, 2, 3, 4, 4, 5 — not the five distinct records the claim states. -/
theorem pagination_dedup_counterexample :
    ((mycaseClientsList 3 exAuthority).map fun c => c.id) = [1, 2, 3, 4, 4, 5]
    ∧ (mycaseClientsList 3 exAuthority).length ≠ 5 := by
  constructor
  · rfl
  · decide

/-- C2 amended: the client follows continuation links until no next link
remains and concatenates all pages without any deduplication, producing
one entry per fetched record (then sorted by updated_at descending); on
the mocked 3-page scenario it returns six records with id 4 twice. -/
theorem pagination_concat_no_dedup (l1 l2 l3 : List MyCaseCase) :
    (mycaseClientsList 3 (chain3 l1 l2 l3)).length
      = l1.length + l2.length + l3.length
    ∧ ((mycaseClientsList 3 exAuthority).map fun c => c.id) = [1, 2, 3, 4, 4, 5] := by
  constructor
  · have h3 : fetchAllCases 3 (chain3 l1 l2 l3) none = l1 ++ (l2 ++ l3) := rfl
    unfold mycaseClientsList
    rw [h3, sortByUpdatedDesc_length, List.length_map]
    simp [Nat.add_assoc]
  · rfl

/-- C3 counterexample: the file-storage refresher run on a stale record
holding refresh token old_rt, against a successful exchange that issues
the new refresh token new_rt, returns a record still carrying old_rt and
writes no refresh_token column at all — the newly issued token is never
stored. -/
theorem google_refresh_ignores_new_refresh_token :
    (googleRefreshTokenIfNeeded 1000 ⟨"old_at", "old_rt", 0, "user1"⟩
        ⟨true, "new_at", some "new_rt", 3600⟩).result
      = .ok ⟨"new_at", "old_rt", 3601000, "user1"⟩
    ∧ (googleRefreshTokenIfNeeded 1000 ⟨"old_at", "old_rt", 0, "user1"⟩
        ⟨true, "new_at", some "new_rt", 3600⟩).dbWrites
      = [⟨"new_at", 3601000, 1000⟩]
    ∧ ("old_rt" : String) ≠ "new_rt" := by
  refine ⟨rfl, rfl, ?_⟩
  decide

/-- C3 amended: after a successful refresh exchange the case-management
refresher stores the refresh token of the response unconditionally
(whatever it carries), while the file-storage refresher keeps the
previously stored refresh token unconditionally, ignoring any newly
issued one: its returned record carries the input refresh token and its
database write touches no refresh_token column. -/
theorem refresh_token_persistence_amended (now : Int) (tm : MyCaseTokens)
    (respm : MyCaseRefreshResponse) (tg : GoogleTokens)
    (respg : GoogleRefreshResponse)
    (hm1 : tm.expires_at - now < SKEW_MS) (hm2 : respm.ok = true)
    (hg1 : tg.expires_at - now < SKEW_MS) (hg2 : respg.ok = true) :
    mycaseRefreshTokenIfNeeded now tm respm
      = ⟨.ok ⟨respm.access_token, respm.refresh_token, now + respm.expires_in * 1000⟩,
         1,
         [⟨respm.access_token, respm.refresh_token, now + respm.expires_in * 1000, now⟩]⟩
    ∧ googleRefreshTokenIfNeeded now tg respg
      = ⟨.ok ⟨respg.access_token, tg.refresh_token, now + respg.expires_in * 1000, tg.user_id⟩,
         1,
         [⟨respg.access_token, now + respg.expires_in * 1000, now⟩]⟩ := by
  constructor
  · unfold mycaseRefreshTokenIfNeeded
    rw [if_pos hm1, if_pos hm2]
  · unfold googleRefreshTokenIfNeeded
    rw [if_pos hg1, if_pos hg2]

/-- C3 amended witness: the amended statement at a stale record and a
successful exchange issuing a new refresh token. -/
theorem refresh_token_persistence_amended_witness :
    mycaseRefreshTokenIfNeeded 1000 ⟨"a", "r", 0⟩ ⟨true, "na", "nr", 3600⟩
      = ⟨.ok ⟨"na", "nr", 3601000⟩, 1, [⟨"na", "nr", 3601000, 1000⟩]⟩
    ∧ googleRefreshTokenIfNeeded 1000 ⟨"a", "r", 0, "u"⟩ ⟨true, "na", some "nr", 3600⟩
      = ⟨.ok ⟨"na", "r", 3601000, "u"⟩, 1, [⟨"na", 3601000, 1000⟩]⟩ :=
  refresh_token_persistence_amended 1000 ⟨"a", "r", 0⟩ ⟨true, "na", "nr", 3600⟩
    ⟨"a", "r", 0, "u"⟩ ⟨true, "na", some "nr", 3600⟩
    (by decide) rfl (by decide) rfl

/-- C4 counterexample: at the boundary instant now = expiresAt - SKEW
(here now = 700000, expiresAt = 1000000, SKEW = 300000) neither refresher
performs an exchange: both return the input unchanged, contradicting the
claim that a refresh is performed at the boundary. -/
theorem refresh_boundary_counterexample :
    mycaseRefreshTokenIfNeeded 700000 ⟨"a", "r", 1000000⟩ ⟨true, "na", "nr", 3600⟩
      = ⟨.ok ⟨"a", "r", 1000000⟩, 0, []⟩
    ∧ googleRefreshTokenIfNeeded 700000 ⟨"a", "r", 1000000, "u"⟩
        ⟨true, "na", none, 3600⟩
      = ⟨.ok ⟨"a", "r", 1000000, "u"⟩, 0, []⟩ :=
  ⟨rfl, rfl⟩

/-- C4 amended: both refreshers trigger a refresh exactly when
expiresAt - now < SKEW, that is when now is strictly past
expiresAt - SKEW; at the boundary instant now = expiresAt - SKEW no
refresh is performed. -/
theorem refresh_trigger_strict_amended (now : Int) (tm : MyCaseTokens)
    (respm : MyCaseRefreshResponse) (tg : GoogleTokens)
    (respg : GoogleRefreshResponse) :
    ((mycaseRefreshTokenIfNeeded now tm respm).exchanges
       = if tm.expires_at - now < SKEW_MS then 1 else 0)
    ∧ ((googleRefreshTokenIfNeeded now tg respg).exchanges
       = if tg.expires_at - now < SKEW_MS then 1 else 0) := by
  constructor
  · unfold mycaseRefreshTokenIfNeeded
    by_cases h : tm.expires_at - now < SKEW_MS
    · rw [if_pos h, if_pos h]
      by_cases h2 : respm.ok = true
      · rw [if_pos h2]
      · rw [if_neg h2]
    · rw [if_neg h, if_neg h]
  · unfold googleRefreshTokenIfNeeded
    by_cases h : tg.expires_at - now < SKEW_MS
    · rw [if_pos h, if_pos h]
      by_cases h2 : respg.ok = true
      · rw [if_pos h2]
      · rw [if_neg h2]
    · rw [if_neg h, if_neg h]

/-- C5: on any callback request in which the value carrying the subject
identity is missing or unparseable, both variants of the Google OAuth
callback handler end in an error redirect (never the success redirect)
and issue no upsert: the state variant whenever the state parameter is
absent or empty, the cookie variant whenever the auth cookie is absent or
its session JWT fails to parse to a subject. -/
theorem callback_missing_subject_no_upsert :
    (∀ (req : CallbackRequest) (now : Int) (ex : ExchangeResult)
        (db : Option String), jsFalsy req.state = true →
        (googleCallbackState req now ex db).2 = []
        ∧ (googleCallbackState req now ex db).1 ≠ CallbackOutcome.success)
    ∧ (∀ (code err : Option String) (now : Int) (ex : ExchangeResult)
        (cookie : Option String) (sub : String → Option String)
        (db : Option String), (∀ cv, cookie = some cv → sub cv = none) →
        (googleCallbackCookie code err now ex cookie sub db).2 = []
        ∧ (googleCallbackCookie code err now ex cookie sub db).1
            ≠ CallbackOutcome.success) := by
  constructor
  · intro req now ex db h
    unfold googleCallbackState
    by_cases h1 : jsFalsy req.error = false
    · rw [if_pos h1]
      exact ⟨rfl, fun hx => CallbackOutcome.noConfusion hx⟩
    · rw [if_neg h1]
      by_cases h2 : jsFalsy req.code = true
      · rw [if_pos h2]
        exact ⟨rfl, fun hx => CallbackOutcome.noConfusion hx⟩
      · rw [if_neg h2, if_pos h]
        exact ⟨rfl, fun hx => CallbackOutcome.noConfusion hx⟩
  · intro code err now ex cookie sub db h
    unfold googleCallbackCookie
    by_cases h1 : jsFalsy err = false
    · rw [if_pos h1]
      exact ⟨rfl, fun hx => CallbackOutcome.noConfusion hx⟩
    · rw [if_neg h1]
      by_cases h2 : jsFalsy code = true
      · rw [if_pos h2]
        exact ⟨rfl, fun hx => CallbackOutcome.noConfusion hx⟩
      · rw [if_neg h2]
        by_cases h3 : ex.ok = false
        · rw [if_pos h3]
          exact ⟨rfl, fun hx => CallbackOutcome.noConfusion hx⟩
        · rw [if_neg h3]
          cases hc : cookie with
          | none => exact ⟨rfl, fun hx => CallbackOutcome.noConfusion hx⟩
          | some cv =>
            have hs := h cv hc
            simp [hs]

/-- C5 witness: the state variant with an absent state parameter and the
cookie variant with an absent auth cookie both issue no upsert. -/
theorem callback_missing_subject_no_upsert_witness :
    (googleCallbackState ⟨some "c", none, none⟩ 0 ⟨true, "a", "r", "s", 100⟩ none).2 = []
    ∧ (googleCallbackCookie (some "c") none 0 ⟨true, "a", "r", "s", 100⟩ none
        (fun _ => none) none).2 = [] :=
  ⟨(callback_missing_subject_no_upsert.1 ⟨some "c", none, none⟩ 0
      ⟨true, "a", "r", "s", 100⟩ none rfl).1,
   (callback_missing_subject_no_upsert.2 (some "c") none 0
      ⟨true, "a", "r", "s", 100⟩ none (fun _ => none) none
      (fun _ hcv => Option.noConfusion hcv)).1⟩

/-- C6: a record whose expiry is strictly beyond now + SKEW is returned
unchanged by both refreshers, with no refresh exchange and no database
write. -/
theorem fresh_token_returned_unchanged (now : Int) (tm : MyCaseTokens)
    (respm : MyCaseRefreshResponse) (tg : GoogleTokens)
    (respg : GoogleRefreshResponse)
    (hm : tm.expires_at > now + SKEW_MS) (hg : tg.expires_at > now + SKEW_MS) :
    mycaseRefreshTokenIfNeeded now tm respm = ⟨.ok tm, 0, []⟩
    ∧ googleRefreshTokenIfNeeded now tg respg = ⟨.ok tg, 0, []⟩ := by
  constructor
  · unfold mycaseRefreshTokenIfNeeded
    rw [if_neg (by simp only [SKEW_MS] at hm ⊢; omega)]
  · unfold googleRefreshTokenIfNeeded
    rw [if_neg (by simp only [SKEW_MS] at hg ⊢; omega)]

/-- C6 witness: a record expiring far in the future passes through both
refreshers untouched. -/
theorem fresh_token_returned_unchanged_witness :
    mycaseRefreshTokenIfNeeded 0 ⟨"at", "rt", 1000000⟩ ⟨true, "x", "y", 3600⟩
      = ⟨.ok ⟨"at", "rt", 1000000⟩, 0, []⟩
    ∧ googleRefreshTokenIfNeeded 0 ⟨"at", "rt", 1000000, "u"⟩ ⟨true, "x", none, 3600⟩
      = ⟨.ok ⟨"at", "rt", 1000000, "u"⟩, 0, []⟩ :=
  fresh_token_returned_unchanged 0 ⟨"at", "rt", 1000000⟩ ⟨true, "x", "y", 3600⟩
    ⟨"at", "rt", 1000000, "u"⟩ ⟨true, "x", none, 3600⟩ (by decide) (by decide)

/-- C7 counterexample: at the boundary expiresAt = now + SKEW the claim
demands exactly one refresh exchange and a strictly later expiry, but
both refreshers perform zero exchanges and return the input record with
its expiry unchanged. -/
theorem stale_boundary_counterexample :
    mycaseRefreshTokenIfNeeded 0 ⟨"a", "r", 300000⟩ ⟨true, "na", "nr", 3600⟩
      = ⟨.ok ⟨"a", "r", 300000⟩, 0, []⟩
    ∧ googleRefreshTokenIfNeeded 0 ⟨"a", "r", 300000, "u"⟩ ⟨true, "na", none, 3600⟩
      = ⟨.ok ⟨"a", "r", 300000, "u"⟩, 0, []⟩ :=
  ⟨rfl, rfl⟩

/-- C7 amended: for a record with expiresAt strictly earlier than
now + SKEW and a successful exchange, both refreshers perform exactly one
refresh exchange (no internal retry) and return a record whose expiry is
now plus the server-declared lifetime in seconds; that expiry is strictly
later than the input expiry whenever the declared lifetime is at least
the skew.  At the boundary expiresAt = now + SKEW no refresh occurs. -/
theorem stale_token_single_exchange_amended (now : Int) (tm : MyCaseTokens)
    (respm : MyCaseRefreshResponse) (tg : GoogleTokens)
    (respg : GoogleRefreshResponse)
    (hm1 : tm.expires_at - now < SKEW_MS) (hm2 : respm.ok = true)
    (hg1 : tg.expires_at - now < SKEW_MS) (hg2 : respg.ok = true) :
    ((mycaseRefreshTokenIfNeeded now tm respm).exchanges = 1
      ∧ (mycaseRefreshTokenIfNeeded now tm respm).result
          = .ok ⟨respm.access_token, respm.refresh_token, now + respm.expires_in * 1000⟩
      ∧ (SKEW_MS ≤ respm.expires_in * 1000 →
          tm.expires_at < now + respm.expires_in * 1000))
    ∧ ((googleRefreshTokenIfNeeded now tg respg).exchanges = 1
      ∧ (googleRefreshTokenIfNeeded now tg respg).result
          = .ok ⟨respg.access_token, tg.refresh_token, now + respg.expires_in * 1000, tg.user_id⟩
      ∧ (SKEW_MS ≤ respg.expires_in * 1000 →
          tg.expires_at < now + respg.expires_in * 1000)) := by
  constructor
  · unfold mycaseRefreshTokenIfNeeded
    rw [if_pos hm1, if_pos hm2]
    exact ⟨rfl, rfl, fun hl => by simp only [SKEW_MS] at hm1 hl; omega⟩
  · unfold googleRefreshTokenIfNeeded
    rw [if_pos hg1, if_pos hg2]
    exact ⟨rfl, rfl, fun hl => by simp only [SKEW_MS] at hg1 hl; omega⟩

/-- C7 amended witness: a record one second past expiry against an
exchange declaring a 3600 second lifetime. -/
theorem stale_token_single_exchange_amended_witness :
    (mycaseRefreshTokenIfNeeded 1000 ⟨"a", "r", 0⟩ ⟨true, "na", "nr", 3600⟩).exchanges = 1
    ∧ (mycaseRefreshTokenIfNeeded 1000 ⟨"a", "r", 0⟩ ⟨true, "na", "nr", 3600⟩).result
        = .ok ⟨"na", "nr", 3601000⟩
    ∧ (googleRefreshTokenIfNeeded 1000 ⟨"a", "r", 0, "u"⟩
        ⟨true, "na", none, 3600⟩).exchanges = 1 := by
  have h := stale_token_single_exchange_amended 1000 ⟨"a", "r", 0⟩
    ⟨true, "na", "nr", 3600⟩ ⟨"a", "r", 0, "u"⟩ ⟨true, "na", none, 3600⟩
    (by decide) rfl (by decide) rfl
  exact ⟨h.1.1, h.1.2.1, h.2.1⟩

/-- C8: when the refresh is triggered and the token endpoint answers
non-success, both refreshers throw Failed to refresh token after exactly
the single attempted exchange, and no database write occurs, leaving the
stored record unchanged. -/
theorem refresh_failure_leaves_store_unchanged (now : Int)
    (tm : MyCaseTokens) (respm : MyCaseRefreshResponse) (tg : GoogleTokens)
    (respg : GoogleRefreshResponse)
    (hm1 : tm.expires_at - now < SKEW_MS) (hm2 : respm.ok = false)
    (hg1 : tg.expires_at - now < SKEW_MS) (hg2 : respg.ok = false) :
    mycaseRefreshTokenIfNeeded now tm respm
      = ⟨.error "Failed to refresh token", 1, []⟩
    ∧ googleRefreshTokenIfNeeded now tg respg
      = ⟨.error "Failed to refresh token", 1, []⟩ := by
  constructor
  · unfold mycaseRefreshTokenIfNeeded
    rw [if_pos hm1, if_neg (by rw [hm2]; exact Bool.false_ne_true)]
  · unfold googleRefreshTokenIfNeeded
    rw [if_pos hg1, if_neg (by rw [hg2]; exact Bool.false_ne_true)]

/-- C8 witness: a stale record against an HTTP 400 refresh exchange. -/
theorem refresh_failure_leaves_store_unchanged_witness :
    mycaseRefreshTokenIfNeeded 1000 ⟨"a", "r", 0⟩ ⟨false, "", "", 0⟩
      = ⟨.error "Failed to refresh token", 1, []⟩
    ∧ googleRefreshTokenIfNeeded 1000 ⟨"a", "r", 0, "u"⟩ ⟨false, "", none, 0⟩
      = ⟨.error "Failed to refresh token", 1, []⟩ :=
  refresh_failure_leaves_store_unchanged 1000 ⟨"a", "r", 0⟩ ⟨false, "", "", 0⟩
    ⟨"a", "r", 0, "u"⟩ ⟨false, "", none, 0⟩ (by decide) rfl (by decide) rfl

/-- C9 counterexample: the never-written store and a transient storage
failure produce the same 401 not-connected outcome of the token-load
step, so the two conditions are not distinguishable to the caller. -/
theorem notconnected_indistinguishable_counterexample :
    mycaseTokenLoad mycaseNeverWritten = TokenLoadOutcome.needsOAuth
    ∧ mycaseTokenLoad mycaseTransientFailure = TokenLoadOutcome.needsOAuth
    ∧ mycaseTokenLoad mycaseNeverWritten = mycaseTokenLoad mycaseTransientFailure :=
  ⟨rfl, rfl, rfl⟩

/-- C9 amended: a subject never written yields the 401 not-connected
needsOAuth outcome (never a generic failure) in both route handlers; but
any storage error, even with a row present, yields the very same outcome,
so not-connected is not distinguishable from a transient storage error. -/
theorem never_written_maps_to_notconnected (e eg : String) (rm : MyCaseRow)
    (rg : GoogleRow) :
    mycaseTokenLoad ⟨none, some e⟩ = TokenLoadOutcome.needsOAuth
    ∧ googleTokenLoad ⟨none, some eg⟩ = TokenLoadOutcome.needsOAuth
    ∧ mycaseTokenLoad ⟨some rm, some e⟩ = TokenLoadOutcome.needsOAuth
    ∧ googleTokenLoad ⟨some rg, some eg⟩ = TokenLoadOutcome.needsOAuth :=
  ⟨rfl, rfl, rfl, rfl⟩

/-- C10: a triggered, successful refresh in the file-storage client
writes exactly one update holding only the access_token, expires_at and
updated_at columns; applied to any stored row it leaves user_id,
refresh_token and scope unchanged, and the returned record carries the
original refresh token and user id. -/
theorem google_refresh_frame (now : Int) (tg : GoogleTokens)
    (respg : GoogleRefreshResponse) (row : GoogleRow)
    (h1 : tg.expires_at - now < SKEW_MS) (h2 : respg.ok = true) :
    (googleRefreshTokenIfNeeded now tg respg).dbWrites
      = [⟨respg.access_token, now + respg.expires_in * 1000, now⟩]
    ∧ (googleRefreshTokenIfNeeded now tg respg).result
      = .ok ⟨respg.access_token, tg.refresh_token, now + respg.expires_in * 1000, tg.user_id⟩
    ∧ (applyGoogleRefreshWrite row
        ⟨respg.access_token, now + respg.expires_in * 1000, now⟩).user_id = row.user_id
    ∧ (applyGoogleRefreshWrite row
        ⟨respg.access_token, now + respg.expires_in * 1000, now⟩).refresh_token
      = row.refresh_token
    ∧ (applyGoogleRefreshWrite row
        ⟨respg.access_token, now + respg.expires_in * 1000, now⟩).scope = row.scope := by
  unfold googleRefreshTokenIfNeeded
  rw [if_pos h1, if_pos h2]
  exact ⟨rfl, rfl, rfl, rfl, rfl⟩

/-- C10 witness: the frame property at a concrete stale record, response
and stored row. -/
theorem google_refresh_frame_witness :
    (googleRefreshTokenIfNeeded 1000 ⟨"a", "r", 0, "u"⟩
        ⟨true, "na", some "nr", 3600⟩).dbWrites = [⟨"na", 3601000, 1000⟩]
    ∧ (googleRefreshTokenIfNeeded 1000 ⟨"a", "r", 0, "u"⟩
        ⟨true, "na", some "nr", 3600⟩).result = .ok ⟨"na", "r", 3601000, "u"⟩
    ∧ (applyGoogleRefreshWrite ⟨"u", "a", "r", 0, "sc", 5⟩
        ⟨"na", 3601000, 1000⟩).refresh_token = "r" := by
  have h := google_refresh_frame 1000 ⟨"a", "r", 0, "u"⟩
    ⟨true, "na", some "nr", 3600⟩ ⟨"u", "a", "r", 0, "sc", 5⟩ (by decide) rfl
  exact ⟨h.1, h.2.1, h.2.2.2.1⟩
